import Mathlib

/-!
Verification development for the `bevy_ggrs` rollback frame scheduler
(`src/lib.rs`).  The Rust code is shallowly embedded: the `GGRSStage`
resource becomes the structure `GGRSStageM`, the bevy `World` becomes
`WorldM` (holding exactly the rollback-relevant data: tagged entities,
registered resources, the `PlayerInputs` resource and the `Session`
resource), and the ggrs session types become records of the responses the
scheduler consumes (`max_prediction()`, `frames_ahead()`,
`add_local_input(..)`, `advance_frame()`, ...), since ggrs itself is an
external collaborator.  Machine integers: the `i32` frame counter is
modelled as `ℤ`, `u32` rollback ids as `ℕ` with explicit `2 ^ 32` bounds,
and `instant::Duration` values as exact nanosecond counts (`ℕ`), which is
the actual resolution of Rust's `Duration`.  Fallible operations (Rust
panics: `assert_eq!`, `.expect(..)`, `%` by zero) return `Option`, with
`none` marking the panic.

The module `world_snapshot.rs` is declared by `lib.rs` but its source is
not part of the repository snapshot under `src/`; `WorldSnapshot`,
`WorldSnapshot::from_world` and `WorldSnapshot::write_to_world` are
therefore modelled from the spec (sections 3, 4.3 and 4.4), as marked on
each definition.
-/

namespace BevyGgrs

/-- Player handles (`ggrs::PlayerHandle = usize`). -/
abbrev PlayerHandle := ℕ

/-- Encoded player input (`T::Input`), modelled as a natural number code. -/
abbrev InputT := ℕ

/-- Mirror of `ggrs::InputStatus`. -/
inductive InputStatus where
  | confirmed
  | predicted
  | disconnected
deriving DecidableEq

/-- A rollback-relevant entity of the bevy world: its optional `Rollback`
component (carrying the `u32` id) and its serialized component data, as an
association list from component type id to serialized bytes. -/
structure RbEntity where
  rollback : Option ℕ
  components : List (ℕ × List ℕ)
deriving DecidableEq

/-- The rollback type registry (`GGRSStage::type_registry`): the component
and resource type ids registered through `register_rollback_component` /
`register_rollback_resource`. -/
structure TypeRegistryM where
  components : List ℕ
  resources : List ℕ
deriving DecidableEq

/-- Mirror of `ggrs::GameStateCell` contents after a `save` call: the
frame, the optional raw serialized state buffer and the optional checksum
(`Option<u128>` in ggrs; the value stored by `save_world` is a `u64`
checksum cast to `u128`, so a plain `ℕ` suffices). -/
structure GameStateCell where
  frame : ℤ
  buffer : Option (List ℕ)
  checksum : Option ℕ
deriving DecidableEq

/-- `GameStateCell::save(frame, data, checksum)` replaces the cell
contents. -/
def GameStateCell.save (_c : GameStateCell) (frame : ℤ)
    (buffer : Option (List ℕ)) (checksum : Option ℕ) : GameStateCell :=
  ⟨frame, buffer, checksum⟩

instance : Inhabited GameStateCell := ⟨⟨0, none, none⟩⟩

/-- Modelled from the spec: `WorldSnapshot` (spec section 3) owns an
ordered mapping from RollbackId to a serialized component bag, the
serialized registered resources, and a checksum.  The source module
`world_snapshot.rs` is referenced by `lib.rs` but absent from `src/`. -/
structure WorldSnapshot where
  entities : List (ℕ × List (ℕ × List ℕ))
  resources : List (ℕ × List ℕ)
  checksum : ℕ
deriving DecidableEq

instance : Inhabited WorldSnapshot := ⟨⟨[], [], 0⟩⟩

/-- Serialization of one byte buffer, length-prefixed. -/
def encodeBytes (b : List ℕ) : List ℕ := b.length :: b

/-- Serialization of one (component type id, bytes) entry. -/
def encodeComponent (c : ℕ × List ℕ) : List ℕ := c.1 :: encodeBytes c.2

/-- Serialization of one (RollbackId, component bag) entry. -/
def encodeEntityEntry (e : ℕ × List (ℕ × List ℕ)) : List ℕ :=
  e.1 :: (e.2.map encodeComponent).flatten

/-- Modelled from the spec: a deterministic integral hash over a byte
sequence, truncated to 64 bits (the checksum handed to ggrs is a `u64`
cast to `u128`).  Any deterministic function of the bytes satisfies the
spec's "deterministic hash" contract (section 4.4). -/
def hashBytes (bytes : List ℕ) : ℕ :=
  bytes.foldl (fun h b => (h * 31 + b + 1) % 2 ^ 64) 7

/-- The session resource `Session<T>` of `lib.rs` is one of three ggrs
session kinds.  Sessions are external collaborators; each is modelled as
the record of responses the scheduler consumes this step. -/
inductive SessionStateM where
  | synchronizing
  | running
deriving DecidableEq

/-- Mirror of `ggrs::GGRSError` restricted to what the scheduler
distinguishes: `PredictionThreshold` versus every other error variant
(collapsed into `otherError`). -/
inductive GGRSErrorM where
  | predictionThreshold
  | otherError
deriving DecidableEq

/-- Mirror of `ggrs::GGRSRequest`: the ordered request protocol consumed
by `GGRSStage::handle_requests`.  `LoadGameState` also carries a cell in
ggrs, which `lib.rs` ignores (`GGRSRequest::LoadGameState { frame, .. }`). -/
inductive GGRSRequestM where
  | saveGameState (cell : GameStateCell) (frame : ℤ)
  | loadGameState (cell : GameStateCell) (frame : ℤ)
  | advanceFrame (inputs : List (InputT × InputStatus))

/-- A `ggrs::SyncTestSession` as seen by the scheduler: reported maximum
prediction window, player count, the result of `add_local_input` per
(handle, input) pair (`true` = `Ok`), and the response of
`advance_frame()`. -/
structure SyncTestSessionM where
  maxPrediction : ℕ
  numPlayers : ℕ
  addOk : PlayerHandle → InputT → Bool
  advanceResult : Except GGRSErrorM (List GGRSRequestM)

/-- A `ggrs::P2PSession` as seen by the scheduler. -/
structure P2PSessionM where
  maxPrediction : ℕ
  framesAhead : ℤ
  localPlayerHandles : List PlayerHandle
  currentState : SessionStateM
  addOk : PlayerHandle → InputT → Bool
  advanceResult : Except GGRSErrorM (List GGRSRequestM)

/-- A `ggrs::SpectatorSession` as seen by the scheduler (no local input,
no snapshot-store interaction in `lib.rs`). -/
structure SpectatorSessionM where
  currentState : SessionStateM
  advanceResult : Except GGRSErrorM (List GGRSRequestM)

/-- Mirror of the `Session<T>` resource enum of `lib.rs`. -/
inductive SessionM where
  | syncTestSession (s : SyncTestSessionM)
  | p2pSession (s : P2PSessionM)
  | spectatorSession (s : SpectatorSessionM)

/-- The bevy `World` restricted to the state this subsystem reads and
writes: rollback-tagged entities, serialized registered resources, the
`PlayerInputs<T>` resource, and the `Session<T>` resource. -/
structure WorldM where
  entities : List RbEntity
  resources : List (ℕ × List ℕ)
  playerInputs : Option (List (InputT × InputStatus))
  session : Option SessionM

/-- Modelled from the spec (section 4.4 Capture): for every entity tagged
rollback-relevant, serialize every registered component type into a bag
keyed by the entity's RollbackId; separately serialize every registered
resource; visit entity bags in canonical order sorted by RollbackId and
hash the full serialized byte sequence.  Stands in for
`WorldSnapshot::from_world(world, type_registry)` of the absent
`world_snapshot.rs`. -/
def WorldSnapshot.from_world (w : WorldM) (reg : TypeRegistryM) : WorldSnapshot :=
  let tagged := w.entities.filterMap fun e =>
    e.rollback.map fun id => (id, e.components.filter fun c => reg.components.contains c.1)
  let sorted := tagged.insertionSort fun a b => a.1 ≤ b.1
  let resources := w.resources.filter fun r => reg.resources.contains r.1
  let bytes := (sorted.map encodeEntityEntry).flatten ++ (resources.map encodeComponent).flatten
  { entities := sorted, resources := resources, checksum := hashBytes bytes }

/-- Modelled from the spec (sections 4.3 Load and 4.4 Restore): overwrite
the component bag of every live rollback-tagged entity whose RollbackId is
present in the snapshot, remove rollback-tagged entities absent from the
snapshot (spawned after the snapshot was taken), re-create snapshot
entries with no live entity, and restore all registered resources,
overwriting current values.  Stands in for
`WorldSnapshot::write_to_world(world, type_registry)` of the absent
`world_snapshot.rs`. -/
def WorldSnapshot.write_to_world (s : WorldSnapshot) (w : WorldM)
    (_reg : TypeRegistryM) : WorldM :=
  { w with
    entities :=
      (w.entities.filterMap fun e =>
        match e.rollback with
        | none => some e
        | some id =>
          match s.entities.lookup id with
          | some bag => some { e with components := bag }
          | none => none)
      ++ ((s.entities.filter fun p =>
            !(w.entities.any fun e => e.rollback == some p.1)).map
          fun p => { rollback := some p.1, components := p.2 }),
    resources :=
      s.resources
      ++ w.resources.filter fun r => !(s.resources.any fun sr => sr.1 == r.1) }

/-- Mirror of the `RollbackIdProvider` resource: a `u32` counter.  The
invariant `nextId < 2 ^ 32` is carried by the theorems' hypotheses. -/
structure RollbackIdProviderM where
  nextId : ℕ
deriving DecidableEq

/-- `RollbackIdProvider::next_id`: panics (`none`) when the counter has
reached `u32::MAX = 2 ^ 32 - 1`, otherwise returns the current counter
value and increments it. -/
def RollbackIdProviderM.next_id (p : RollbackIdProviderM) :
    Option (ℕ × RollbackIdProviderM) :=
  if p.nextId = 2 ^ 32 - 1 then none
  else some (p.nextId, ⟨p.nextId + 1⟩)

/-- Issue `n` ids in sequence from the provider, propagating the panic. -/
def RollbackIdProviderM.issueIds (p : RollbackIdProviderM) :
    ℕ → Option (List ℕ × RollbackIdProviderM)
  | 0 => some ([], p)
  | n + 1 =>
    (p.next_id).bind fun idp =>
      (idp.2.issueIds n).map fun lp => (idp.1 :: lp.1, lp.2)

/-- Log lines the scheduler emits at `info!` / `warn!` level (`debug!`
lines are not modelled; no claim concerns them). -/
inductive LogM where
  | info
  | warn
deriving DecidableEq

/-- Mirror of the `GGRSStage<T>` resource.  `last_update: Instant` is
external wall-clock state and is replaced by passing the measured `delta`
to `tick` directly; `accumulator: Duration` is an exact nanosecond
count. -/
structure GGRSStageM where
  typeRegistry : TypeRegistryM
  inputSystem : PlayerHandle → WorldM → InputT
  snapshots : List WorldSnapshot
  updateFrequency : ℕ
  frame : ℤ
  accumulator : ℕ
  runSlow : Bool

/-- The Rust cast `frame as usize` for an `i32` frame: sign extension to
64 bits reinterpreted as unsigned, i.e. reduction modulo `2 ^ 64`. -/
def usizeOfI32 (frame : ℤ) : ℕ := (frame % (2 ^ 64 : ℤ)).toNat

/-- `GGRSStage::save_world`: `assert_eq!(self.frame, frame)` (panic on
mismatch, modelled as `none`), capture a `WorldSnapshot` of the world,
hand the current frame, no raw buffer and the snapshot checksum to the
ggrs cell, and store the snapshot at slot `frame as usize %
self.snapshots.len()` (`%` by zero panics, modelled as `none`).  Returns
the updated stage and the saved cell. -/
def GGRSStageM.save_world (st : GGRSStageM) (cell : GameStateCell)
    (frame : ℤ) (w : WorldM) : Option (GGRSStageM × GameStateCell) :=
  if st.frame = frame then
    let snapshot := WorldSnapshot.from_world w st.typeRegistry
    let cell1 := cell.save st.frame none (some snapshot.checksum)
    if st.snapshots.length = 0 then none
    else
      let pos := usizeOfI32 frame % st.snapshots.length
      some ({ st with snapshots := st.snapshots.set pos snapshot }, cell1)
  else none

/-- `GGRSStage::load_world`: set `self.frame = frame`, then restore the
world from the snapshot at slot `frame as usize % self.snapshots.len()`
(`%` by zero panics, modelled as `none`; the index is in bounds whenever
the store is nonempty, so `getD` coincides with the Rust indexing). -/
def GGRSStageM.load_world (st : GGRSStageM) (frame : ℤ) (w : WorldM) :
    Option (GGRSStageM × WorldM) :=
  let st1 := { st with frame := frame }
  if st1.snapshots.length = 0 then none
  else
    let pos := usizeOfI32 frame % st1.snapshots.length
    let snap := st1.snapshots.getD pos default
    some (st1, snap.write_to_world w st1.typeRegistry)

/-- `GGRSStage::advance_frame`: insert the `PlayerInputs` resource, run
the `GGRSSchedule` once (`sched` is the externally-defined per-frame game
logic, a world transformer), remove the `PlayerInputs` resource, and
increment the frame counter by one. -/
def GGRSStageM.advance_frame (st : GGRSStageM) (sched : WorldM → WorldM)
    (inputs : List (InputT × InputStatus)) (w : WorldM) :
    GGRSStageM × WorldM :=
  let w1 := { w with playerInputs := some inputs }
  let w2 := sched w1
  let w3 := { w2 with playerInputs := none }
  ({ st with frame := st.frame + 1 }, w3)

/-- Result of one session step: the stage, the world, the cells written by
`Save` requests (in order), and the emitted info/warn log lines. -/
structure StepOut where
  stage : GGRSStageM
  world : WorldM
  cells : List GameStateCell
  logs : List LogM

/-- `GGRSStage::handle_requests`: process the request list strictly in
order, threading stage and world; a panic inside a request aborts
(`none`). -/
def GGRSStageM.handle_requests (st : GGRSStageM) (sched : WorldM → WorldM)
    (reqs : List GGRSRequestM) (w : WorldM) : Option StepOut :=
  match reqs with
  | [] => some ⟨st, w, [], []⟩
  | .saveGameState cell frame :: rest =>
    (st.save_world cell frame w).bind fun sc =>
      (sc.1.handle_requests sched rest w).map fun out =>
        { out with cells := sc.2 :: out.cells }
  | .loadGameState _ frame :: rest =>
    (st.load_world frame w).bind fun sw =>
      sw.1.handle_requests sched rest sw.2
  | .advanceFrame inputs :: rest =>
    let sw := st.advance_frame sched inputs w
    sw.1.handle_requests sched rest sw.2

/-- `GGRSStage::run_synctest` given the `SyncTestSession` found in the
world: resize an empty snapshot store to `max_prediction()`, gather one
input per player handle `0..num_players()`, submit them with
`add_local_input` (the `.expect(..)` panic on an `Err` is `none`), then
`advance_frame()`: requests are handled, an error is logged at warn
level. -/
def GGRSStageM.run_synctest (st : GGRSStageM) (sched : WorldM → WorldM)
    (sess : SyncTestSessionM) (w : WorldM) : Option StepOut :=
  let st1 :=
    if st.snapshots.isEmpty
    then { st with snapshots := st.snapshots ++ List.replicate sess.maxPrediction default }
    else st
  let inputs := (List.range sess.numPlayers).map fun h => st.inputSystem h w
  if inputs.enum.all fun p => sess.addOk p.1 p.2 then
    match sess.advanceResult with
    | .ok requests => st1.handle_requests sched requests w
    | .error _ => some ⟨st1, w, [], [.warn]⟩
  else none

/-- `GGRSStage::run_spectator` given the `SpectatorSession` found in the
world: if the session is `Running`, `advance_frame()`; requests are
handled, `PredictionThreshold` is logged at info level, any other error at
warn level.  Note: unlike the other two variants, no snapshot-store
resize is performed. -/
def GGRSStageM.run_spectator (st : GGRSStageM) (sched : WorldM → WorldM)
    (sess : SpectatorSessionM) (w : WorldM) : Option StepOut :=
  if sess.currentState = .running then
    match sess.advanceResult with
    | .ok requests => st.handle_requests sched requests w
    | .error .predictionThreshold => some ⟨st, w, [], [.info]⟩
    | .error _ => some ⟨st, w, [], [.warn]⟩
  else some ⟨st, w, [], []⟩

/-- `GGRSStage::run_p2p` given the `P2PSession` found in the world: resize
an empty snapshot store to `max_prediction()`, set `run_slow` from
`frames_ahead() > 0`, gather inputs for the local player handles, and if
the session is `Running` submit them (`.expect(..)` panic is `none`) and
`advance_frame()`: requests are handled, `PredictionThreshold` is logged
at info level, any other error at warn level. -/
def GGRSStageM.run_p2p (st : GGRSStageM) (sched : WorldM → WorldM)
    (sess : P2PSessionM) (w : WorldM) : Option StepOut :=
  let st1 :=
    if st.snapshots.isEmpty
    then { st with snapshots := st.snapshots ++ List.replicate sess.maxPrediction default }
    else st
  let st2 := { st1 with runSlow := decide (0 < sess.framesAhead) }
  let localInputs := sess.localPlayerHandles.map fun h => st.inputSystem h w
  if sess.currentState = .running then
    if (sess.localPlayerHandles.zip localInputs).all fun p => sess.addOk p.1 p.2 then
      match sess.advanceResult with
      | .ok requests => st2.handle_requests sched requests w
      | .error .predictionThreshold => some ⟨st2, w, [], [.info]⟩
      | .error _ => some ⟨st2, w, [], [.warn]⟩
    else none
  else some ⟨st2, w, [], []⟩

/-- `GGRSStage::reset`: clear timing and frame state (the `last_update`
reset concerns the unmodelled wall clock). -/
def GGRSStageM.reset (st : GGRSStageM) : GGRSStageM :=
  { st with accumulator := 0, frame := 0, runSlow := false, snapshots := [] }

/-- The effective step duration in seconds computed at the top of
`GGRSStage::run`: `fps_delta = 1. / update_frequency`, multiplied by `1.1`
when `run_slow` is set.  The `f64` arithmetic of the source is modelled
over `ℚ`; for every comparison and rounding performed by the claims in
this file the rational and `f64` results coincide, because the compared
integer nanosecond values are far further from the thresholds than the
`f64` rounding error. -/
def GGRSStageM.fps_delta (st : GGRSStageM) : ℚ :=
  let d : ℚ := 1 / (st.updateFrequency : ℚ)
  if st.runSlow then d * (11 / 10) else d

/-- `Duration::from_secs_f64`: seconds to whole nanoseconds, rounded to
nearest (the Rust tie-to-even at exact half-nanoseconds is never exercised
here). -/
def stepNanos (fpsDelta : ℚ) : ℕ := (round (fpsDelta * 1000000000)).toNat

/-- `Duration::MAX` in nanoseconds: `u64::MAX` seconds plus `999_999_999`
nanoseconds. -/
def durationMaxNanos : ℕ := (2 ^ 64 - 1) * 1000000000 + 999999999

/-- `Duration::saturating_add` on nanosecond counts. -/
def satAddNanos (a b : ℕ) : ℕ := min (a + b) durationMaxNanos

/-- State threaded through the fixed-timestep while-loop of
`GGRSStage::run`: stage (whose `accumulator` field is the live
accumulator), world, number of simulation steps performed, saved cells and
log lines. -/
structure LoopState where
  stage : GGRSStageM
  world : WorldM
  steps : ℕ
  cells : List GameStateCell
  logs : List LogM

/-- The `while stage.accumulator.as_secs_f64() > fps_delta` loop of
`GGRSStage::run`, with explicit fuel for structural recursion.  Each
iteration subtracts one step duration (`Duration::saturating_sub`, which
is exactly `ℕ` subtraction) and performs one session step, dispatching on
the `Session` resource; with no session the stage is reset.  The loop
condition carries the extra conjunct `0 < stepNanos fpsDelta`: without it
the Rust loop would not terminate at all (it would subtract a zero
duration forever), so no terminating behaviour is lost.  The fuel
`accumulator + 1` supplied by `tick` can never run out, because every
iteration either removes at least one nanosecond from the accumulator or
zeroes it. -/
def tickLoopAux (fpsDelta : ℚ) (sched : WorldM → WorldM) :
    ℕ → LoopState → Option LoopState
  | 0, s => some s
  | fuel + 1, s =>
    if ((s.stage.accumulator : ℚ)) / 1000000000 > fpsDelta ∧ 0 < stepNanos fpsDelta then
      let st := { s.stage with accumulator := s.stage.accumulator - stepNanos fpsDelta }
      match s.world.session with
      | some (.syncTestSession sess) =>
        (st.run_synctest sched sess s.world).bind fun out =>
          tickLoopAux fpsDelta sched fuel
            ⟨out.stage, out.world, s.steps + 1, s.cells ++ out.cells, s.logs ++ out.logs⟩
      | some (.p2pSession sess) =>
        (st.run_p2p sched sess s.world).bind fun out =>
          tickLoopAux fpsDelta sched fuel
            ⟨out.stage, out.world, s.steps + 1, s.cells ++ out.cells, s.logs ++ out.logs⟩
      | some (.spectatorSession sess) =>
        (st.run_spectator sched sess s.world).bind fun out =>
          tickLoopAux fpsDelta sched fuel
            ⟨out.stage, out.world, s.steps + 1, s.cells ++ out.cells, s.logs ++ out.logs⟩
      | none =>
        tickLoopAux fpsDelta sched fuel ⟨st.reset, s.world, s.steps, s.cells, s.logs⟩
    else some s

/-- `GGRSStage::run` for one invocation ("tick"): `delta` is the elapsed
time since the previous invocation in nanoseconds (the
`Instant::now().duration_since(stage.last_update)` measurement is external
wall-clock input).  Computes `fps_delta` from the current `run_slow` flag,
adds `delta` to the accumulator with saturation, polls remote clients (a
pure side effect on the external session, not modelled), then runs the
fixed-timestep loop. -/
def GGRSStageM.tick (st : GGRSStageM) (sched : WorldM → WorldM)
    (delta : ℕ) (w : WorldM) : Option LoopState :=
  let fpsDelta := st.fps_delta
  let st1 := { st with accumulator := satAddNanos st.accumulator delta }
  tickLoopAux fpsDelta sched (st1.accumulator + 1) ⟨st1, w, 0, [], []⟩

instance : Inhabited GGRSStageM :=
  ⟨⟨⟨[], []⟩, fun _ _ => 0, [], 60, 0, 0, false⟩⟩

instance : Inhabited WorldM := ⟨⟨[], [], none, none⟩⟩

instance : Inhabited StepOut := ⟨⟨default, default, [], []⟩⟩

/-- The identity world transformer: a `GGRSSchedule` containing no
systems. -/
def schedId : WorldM → WorldM := id

/-- For nonnegative frames inside the `i32` range, the Rust `as usize`
cast is just `Int.toNat`. -/
theorem usizeOfI32_eq_toNat (f : ℤ) (h0 : 0 ≤ f) (h31 : f < 2 ^ 31) :
    usizeOfI32 f = f.toNat := by
  unfold usizeOfI32
  rw [Int.emod_eq_of_lt h0 (by omega)]

/-- C1: a Save(frame) request under the precondition `frame =
self.frame` captures a snapshot of the world, hands the current frame and
the snapshot's checksum — and no raw state buffer — to the session's
state cell, and stores the snapshot at ring-buffer slot `frame mod N`
where `N` is the snapshot store's length; a frame differing from the
current frame counter aborts (`assert_eq!` panic). -/
theorem c1_save_world (st : GGRSStageM) (cell : GameStateCell) (frame : ℤ)
    (w : WorldM) (hframe : frame = st.frame) (h0 : 0 ≤ frame)
    (h31 : frame < 2 ^ 31) (hne : st.snapshots ≠ []) :
    st.save_world cell frame w =
      some ({ st with snapshots :=
                (st.snapshots.set (frame.toNat % st.snapshots.length)
                  (WorldSnapshot.from_world w st.typeRegistry)) },
            { frame := st.frame, buffer := none,
              checksum := some (WorldSnapshot.from_world w st.typeRegistry).checksum })
    ∧ (∀ frame' : ℤ, frame' ≠ st.frame → st.save_world cell frame' w = none) := by
  constructor
  · have hlen : ¬ st.snapshots.length = 0 := by
      simpa [List.length_eq_zero] using hne
    subst hframe
    simp [GGRSStageM.save_world, hlen, GameStateCell.save,
      usizeOfI32_eq_toNat _ h0 h31]
  · intro frame' hf'
    simp only [GGRSStageM.save_world]
    rw [if_neg (fun h => hf' h.symm)]

/-- Fixture: a stage with a two-slot snapshot store at frame 0. -/
def stageW1 : GGRSStageM :=
  { typeRegistry := ⟨[1], [2]⟩, inputSystem := fun _ _ => 0,
    snapshots := [default, default], updateFrequency := 60, frame := 0,
    accumulator := 0, runSlow := false }

/-- Fixture: a world with one tagged entity and one resource. -/
def worldW1 : WorldM :=
  { entities := [⟨some 0, [(1, [3])]⟩], resources := [(2, [4])],
    playerInputs := none, session := none }

theorem c1_save_world_witness :
    (stageW1.save_world default 0 worldW1 =
      some ({ stageW1 with snapshots :=
                (stageW1.snapshots.set ((0 : ℤ).toNat % stageW1.snapshots.length)
                  (WorldSnapshot.from_world worldW1 stageW1.typeRegistry)) },
            { frame := stageW1.frame, buffer := none,
              checksum := some (WorldSnapshot.from_world worldW1 stageW1.typeRegistry).checksum }))
    ∧ stageW1.save_world default 5 worldW1 = none :=
  ⟨(c1_save_world stageW1 default 0 worldW1 rfl (by decide) (by decide)
      (by decide)).1,
   (c1_save_world stageW1 default 0 worldW1 rfl (by decide) (by decide)
      (by decide)).2 5 (by decide)⟩

/-- C2: a Load(frame) request sets the scheduler's frame counter to
`frame` and restores world state from the snapshot stored at ring-buffer
slot `frame mod N`, where `N` is the snapshot store's length. -/
theorem c2_load_world (st : GGRSStageM) (frame : ℤ) (w : WorldM)
    (h0 : 0 ≤ frame) (h31 : frame < 2 ^ 31) (hne : st.snapshots ≠ []) :
    st.load_world frame w =
      some ({ st with frame := frame },
            (st.snapshots.getD (frame.toNat % st.snapshots.length)
              default).write_to_world w st.typeRegistry) := by
  have hlen : ¬ st.snapshots.length = 0 := by
    simpa [List.length_eq_zero] using hne
  simp only [GGRSStageM.load_world, if_neg hlen,
    usizeOfI32_eq_toNat frame h0 h31]

theorem c2_load_world_witness :
    stageW1.load_world 3 worldW1 =
      some ({ stageW1 with frame := 3 },
            (stageW1.snapshots.getD ((3 : ℤ).toNat % stageW1.snapshots.length)
              default).write_to_world worldW1 stageW1.typeRegistry) :=
  c2_load_world stageW1 3 worldW1 (by decide) (by decide) (by decide)

/-- C3: an Advance(inputs) request inserts a `PlayerInputs` resource
holding exactly the given pairs, runs the simulation schedule exactly
once on that world, removes the `PlayerInputs` resource afterward, and
increments the frame counter by exactly one; no `PlayerInputs` resource
remains afterwards. -/
theorem c3_advance_frame (st : GGRSStageM) (sched : WorldM → WorldM)
    (inputs : List (InputT × InputStatus)) (w : WorldM)
    (rest : List GGRSRequestM) :
    st.handle_requests sched (.advanceFrame inputs :: rest) w =
      GGRSStageM.handle_requests { st with frame := st.frame + 1 } sched rest
        { sched { w with playerInputs := some inputs } with playerInputs := none }
    ∧ (st.advance_frame sched inputs w).1.frame = st.frame + 1
    ∧ (st.advance_frame sched inputs w).2.playerInputs = none
    ∧ (st.advance_frame sched inputs w).2 =
        { sched { w with playerInputs := some inputs } with playerInputs := none } :=
  ⟨rfl, rfl, rfl, rfl⟩

/-- Issuing ids never reaching the counter maximum yields the
arithmetic progression from the start value. -/
theorem issueIds_eq (n : ℕ) : ∀ s : ℕ, s + n ≤ 2 ^ 32 - 1 →
    RollbackIdProviderM.issueIds ⟨s⟩ n = some (List.range' s n, ⟨s + n⟩) := by
  induction n with
  | zero => intro s _; simp [RollbackIdProviderM.issueIds]
  | succ n ih =>
    intro s h
    have hs : ¬ s = 2 ^ 32 - 1 := by omega
    have ihs := ih (s + 1) (by omega)
    have harith : s + 1 + n = s + (n + 1) := by omega
    rw [RollbackIdProviderM.issueIds, RollbackIdProviderM.next_id, if_neg hs]
    simp [ihs, List.range'_succ, harith]

/-- C9: for every `n` with `s + n ≤ u32::MAX`, issuing `n` ids yields
`n` distinct, strictly increasing values — each call returns the current
counter value then increments it — and a call at `u32::MAX` fails fatally
(panic). -/
theorem c9_next_id (s n : ℕ) (h : s + n ≤ 2 ^ 32 - 1) :
    RollbackIdProviderM.issueIds ⟨s⟩ n = some (List.range' s n, ⟨s + n⟩)
    ∧ (List.range' s n).Pairwise (· < ·)
    ∧ (List.range' s n).Nodup
    ∧ (List.range' s n).length = n
    ∧ RollbackIdProviderM.next_id ⟨2 ^ 32 - 1⟩ = none :=
  ⟨issueIds_eq n s h, List.pairwise_lt_range' s n,
   List.nodup_range' s n, List.length_range' s 1 n,
   by simp [RollbackIdProviderM.next_id]⟩

theorem c9_next_id_witness :
    RollbackIdProviderM.issueIds ⟨0⟩ 3 = some (List.range' 0 3, ⟨0 + 3⟩)
    ∧ (List.range' 0 3).Pairwise (· < ·)
    ∧ (List.range' 0 3).Nodup
    ∧ (List.range' 0 3).length = 3
    ∧ RollbackIdProviderM.next_id ⟨2 ^ 32 - 1⟩ = none :=
  c9_next_id 0 3 (by decide)

/-- A successful `save_world` only replaces one snapshot slot: store
length, `run_slow` and the frame counter are unchanged. -/
theorem save_world_shape {st : GGRSStageM} {cell c1 : GameStateCell}
    {frame : ℤ} {w : WorldM} {st1 : GGRSStageM}
    (h : st.save_world cell frame w = some (st1, c1)) :
    st1.snapshots.length = st.snapshots.length ∧ st1.runSlow = st.runSlow := by
  unfold GGRSStageM.save_world at h
  by_cases h1 : st.frame = frame
  · by_cases h2 : st.snapshots.length = 0
    · simp [h1, h2] at h
    · simp only [if_pos h1, if_neg h2, Option.some.injEq, Prod.mk.injEq] at h
      obtain ⟨h3, -⟩ := h
      subst h3
      simp
  · simp [h1] at h

/-- A successful `load_world` keeps the snapshot store and `run_slow`
unchanged. -/
theorem load_world_shape {st : GGRSStageM} {frame : ℤ} {w w1 : WorldM}
    {st1 : GGRSStageM} (h : st.load_world frame w = some (st1, w1)) :
    st1.snapshots = st.snapshots ∧ st1.runSlow = st.runSlow := by
  unfold GGRSStageM.load_world at h
  by_cases h2 : st.snapshots.length = 0
  · simp [h2] at h
  · simp only [if_neg h2, Option.some.injEq, Prod.mk.injEq] at h
    obtain ⟨h3, -⟩ := h
    subst h3
    simp

/-- Request handling never changes the length of the snapshot store or
the `run_slow` flag: saves replace a slot in place, loads and advances do
not touch the store. -/
theorem handle_requests_shape (sched : WorldM → WorldM) :
    ∀ (reqs : List GGRSRequestM) (st : GGRSStageM) (w : WorldM) (out : StepOut),
      st.handle_requests sched reqs w = some out →
      out.stage.snapshots.length = st.snapshots.length
      ∧ out.stage.runSlow = st.runSlow := by
  intro reqs
  induction reqs with
  | nil =>
    intro st w out h
    simp only [GGRSStageM.handle_requests, Option.some.injEq] at h
    subst h
    exact ⟨rfl, rfl⟩
  | cons r rest ih =>
    intro st w out h
    cases r with
    | saveGameState cell frame =>
      simp only [GGRSStageM.handle_requests] at h
      cases hsv : st.save_world cell frame w with
      | none => rw [hsv] at h; simp at h
      | some sc =>
        obtain ⟨st1, c1⟩ := sc
        rw [hsv] at h
        simp only [Option.some_bind] at h
        cases hh : st1.handle_requests sched rest w with
        | none => rw [hh] at h; simp at h
        | some out0 =>
          rw [hh] at h
          simp only [Option.map_some', Option.some.injEq] at h
          obtain ⟨hl, hr⟩ := save_world_shape hsv
          obtain ⟨hl2, hr2⟩ := ih st1 w out0 hh
          subst h
          exact ⟨hl2.trans hl, hr2.trans hr⟩
    | loadGameState cell frame =>
      simp only [GGRSStageM.handle_requests] at h
      cases hld : st.load_world frame w with
      | none => rw [hld] at h; simp at h
      | some sw =>
        obtain ⟨st1, w1⟩ := sw
        rw [hld] at h
        simp only [Option.some_bind] at h
        obtain ⟨hl, hr⟩ := load_world_shape hld
        obtain ⟨hl2, hr2⟩ := ih st1 w1 out h
        exact ⟨by rw [hl2, hl], by rw [hr2, hr]⟩
    | advanceFrame inputs =>
      simp only [GGRSStageM.handle_requests] at h
      obtain ⟨hl2, hr2⟩ := ih _ _ out h
      exact ⟨hl2, hr2⟩

/-- C5, amended: in the SyncTest and PeerToPeer variants an empty
snapshot store is resized to the session's reported maximum prediction
window before requests are handled, and request handling preserves the
store length, so every save/load of such a step indexes a store of length
`max_prediction`; the Spectator variant performs no such resize (its
`run_spectator` never touches the store). -/
theorem c5_store_resize :
    (∀ (sched : WorldM → WorldM) (reqs : List GGRSRequestM) (st : GGRSStageM)
        (w : WorldM) (out : StepOut),
      st.handle_requests sched reqs w = some out →
      out.stage.snapshots.length = st.snapshots.length)
    ∧ (∀ (st : GGRSStageM) (sched : WorldM → WorldM) (sess : SyncTestSessionM)
        (w : WorldM) (out : StepOut),
      st.snapshots = [] → st.run_synctest sched sess w = some out →
      out.stage.snapshots.length = sess.maxPrediction)
    ∧ (∀ (st : GGRSStageM) (sched : WorldM → WorldM) (sess : P2PSessionM)
        (w : WorldM) (out : StepOut),
      st.snapshots = [] → st.run_p2p sched sess w = some out →
      out.stage.snapshots.length = sess.maxPrediction) := by
  refine ⟨fun sched reqs st w out h => (handle_requests_shape sched reqs st w out h).1,
    ?_, ?_⟩
  · intro st sched sess w out hemp h
    unfold GGRSStageM.run_synctest at h
    simp only [hemp, List.isEmpty_nil, if_true, List.nil_append] at h
    split at h
    · split at h
      · have := (handle_requests_shape sched _ _ _ out h).1
        simpa using this
      · simp only [Option.some.injEq] at h
        subst h
        simp
    · simp at h
  · intro st sched sess w out hemp h
    unfold GGRSStageM.run_p2p at h
    simp only [hemp, List.isEmpty_nil, if_true, List.nil_append] at h
    split at h
    · split at h
      · split at h
        · have := (handle_requests_shape sched _ _ _ out h).1
          simpa using this
        · simp only [Option.some.injEq] at h
          subst h
          simp
        · simp only [Option.some.injEq] at h
          subst h
          simp
      · simp at h
    · simp only [Option.some.injEq] at h
      subst h
      simp

/-- Fixture: a fresh stage with an empty snapshot store. -/
def stageC5 : GGRSStageM :=
  { typeRegistry := ⟨[], []⟩, inputSystem := fun _ _ => 0, snapshots := [],
    updateFrequency := 60, frame := 0, accumulator := 0, runSlow := false }

/-- Fixture: a running spectator session whose advance yields a Load
request for frame 0. -/
def sessC5spec : SpectatorSessionM :=
  { currentState := .running, advanceResult := .ok [.loadGameState default 0] }

/-- Fixture: the world holding the spectator session. -/
def worldC5 : WorldM :=
  { entities := [], resources := [], playerInputs := none,
    session := some (.spectatorSession sessC5spec) }

/-- C5 counterexample: in the Spectator variant the empty snapshot store
is never resized: a spectator step that delivers a Load request with an
empty store panics (`%` by zero) instead of indexing a store of length
`max_prediction`, so the claim fails for the Spectator variant. -/
theorem c5_counterexample :
    stageC5.run_spectator schedId sessC5spec worldC5 = none
    ∧ stageC5.snapshots.length = 0 :=
  ⟨rfl, rfl⟩

/-- Fixture: a synctest session reporting a maximum prediction window of
8 whose advance reports an error. -/
def sessC5sync : SyncTestSessionM :=
  { maxPrediction := 8, numPlayers := 0, addOk := fun _ _ => true,
    advanceResult := .error .otherError }

/-- Fixture: the step output of a synctest step from an empty store. -/
def outC5 : StepOut :=
  (stageC5.run_synctest schedId sessC5sync worldW1).getD default

theorem c5_store_resize_witness :
    stageC5.snapshots = []
    ∧ outC5.stage.snapshots.length = sessC5sync.maxPrediction :=
  ⟨rfl, c5_store_resize.2.1 stageC5 schedId sessC5sync worldW1 outC5 rfl rfl⟩

/-- C6: for PeerToPeer and Spectator steps whose advance reports an
error, a `PredictionThreshold` error skips the step with an informational
notice and any other error with a warning; in all four cases the frame
counter is unchanged and the step returns normally (no abort), so the
tick loop continues. -/
theorem c6_advance_errors :
    (∀ (st : GGRSStageM) (sched : WorldM → WorldM) (sess : P2PSessionM) (w : WorldM),
      sess.currentState = .running →
      ((sess.localPlayerHandles.zip
          (sess.localPlayerHandles.map fun h => st.inputSystem h w)).all
          fun p => sess.addOk p.1 p.2) = true →
      sess.advanceResult = .error .predictionThreshold →
      (st.run_p2p sched sess w).map (fun o => (o.stage.frame, o.logs)) =
        some (st.frame, [.info]))
    ∧ (∀ (st : GGRSStageM) (sched : WorldM → WorldM) (sess : P2PSessionM) (w : WorldM),
      sess.currentState = .running →
      ((sess.localPlayerHandles.zip
          (sess.localPlayerHandles.map fun h => st.inputSystem h w)).all
          fun p => sess.addOk p.1 p.2) = true →
      sess.advanceResult = .error .otherError →
      (st.run_p2p sched sess w).map (fun o => (o.stage.frame, o.logs)) =
        some (st.frame, [.warn]))
    ∧ (∀ (st : GGRSStageM) (sched : WorldM → WorldM) (sess : SpectatorSessionM) (w : WorldM),
      sess.currentState = .running →
      sess.advanceResult = .error .predictionThreshold →
      (st.run_spectator sched sess w).map (fun o => (o.stage.frame, o.logs)) =
        some (st.frame, [.info]))
    ∧ (∀ (st : GGRSStageM) (sched : WorldM → WorldM) (sess : SpectatorSessionM) (w : WorldM),
      sess.currentState = .running →
      sess.advanceResult = .error .otherError →
      (st.run_spectator sched sess w).map (fun o => (o.stage.frame, o.logs)) =
        some (st.frame, [.warn])) := by
  refine ⟨?_, ?_, ?_, ?_⟩
  · intro st sched sess w h1 h2 h3
    by_cases he : st.snapshots.isEmpty <;>
      simp [GGRSStageM.run_p2p, h1, h2, h3, he]
  · intro st sched sess w h1 h2 h3
    by_cases he : st.snapshots.isEmpty <;>
      simp [GGRSStageM.run_p2p, h1, h2, h3, he]
  · intro st sched sess w h1 h2
    simp [GGRSStageM.run_spectator, h1, h2]
  · intro st sched sess w h1 h2
    simp [GGRSStageM.run_spectator, h1, h2]

/-- Fixture: a running P2P session with one local player whose advance
reports `PredictionThreshold`. -/
def sessC6 : P2PSessionM :=
  { maxPrediction := 8, framesAhead := 0, localPlayerHandles := [0],
    currentState := .running, addOk := fun _ _ => true,
    advanceResult := .error .predictionThreshold }

/-- Fixture: a running spectator session whose advance reports a
non-threshold error. -/
def sessC6spec : SpectatorSessionM :=
  { currentState := .running, advanceResult := .error .otherError }

theorem c6_advance_errors_witness :
    (stageC5.run_p2p schedId sessC6 worldW1).map
        (fun o => (o.stage.frame, o.logs)) = some (stageC5.frame, [.info])
    ∧ (stageC5.run_spectator schedId sessC6spec worldW1).map
        (fun o => (o.stage.frame, o.logs)) = some (stageC5.frame, [.warn]) :=
  ⟨c6_advance_errors.1 stageC5 schedId sessC6 worldW1 rfl (by decide) rfl,
   c6_advance_errors.2.2.2 stageC5 schedId sessC6spec worldW1 rfl rfl⟩

/-- C7: the effective step duration used by the tick's accumulator
comparison and subtraction is `fps_delta`, which is exactly `1.1` times
the nominal step duration `1 / update_frequency` when `run_slow` is set
and exactly `1` times it otherwise; a PeerToPeer step sets `run_slow`
precisely to `frames_ahead() > 0` (used by the next tick). -/
theorem c7_run_slow_scaling :
    (∀ st : GGRSStageM, st.runSlow = true →
      st.fps_delta = 11 / 10 * (1 / (st.updateFrequency : ℚ)))
    ∧ (∀ st : GGRSStageM, st.runSlow = false →
      st.fps_delta = 1 / (st.updateFrequency : ℚ))
    ∧ (∀ (st : GGRSStageM) (sched : WorldM → WorldM) (sess : P2PSessionM)
        (w : WorldM) (out : StepOut),
      st.run_p2p sched sess w = some out →
      out.stage.runSlow = decide (0 < sess.framesAhead))
    ∧ (∀ (st : GGRSStageM) (sched : WorldM → WorldM) (delta : ℕ) (w : WorldM),
      st.tick sched delta w = tickLoopAux st.fps_delta sched
        (satAddNanos st.accumulator delta + 1)
        ⟨{ st with accumulator := satAddNanos st.accumulator delta }, w, 0, [], []⟩) := by
  refine ⟨?_, ?_, ?_, fun st sched delta w => rfl⟩
  · intro st h
    simp [GGRSStageM.fps_delta, h, mul_comm]
  · intro st h
    simp [GGRSStageM.fps_delta, h]
  · intro st sched sess w out h
    simp only [GGRSStageM.run_p2p] at h
    split at h
    · split at h
      · split at h
        · have := (handle_requests_shape sched _ _ _ out h).2
          simpa using this
        · simp only [Option.some.injEq] at h
          subst h
          simp
        · simp only [Option.some.injEq] at h
          subst h
          simp
      · simp at h
    · simp only [Option.some.injEq] at h
      subst h
      simp

/-- Fixture: a stage running slow at 60 fps. -/
def stageC7slow : GGRSStageM := { stageC5 with runSlow := true }

/-- Fixture: a running P2P session that is 3 frames ahead of its peers. -/
def sessC7 : P2PSessionM :=
  { maxPrediction := 8, framesAhead := 3, localPlayerHandles := [0],
    currentState := .running, addOk := fun _ _ => true,
    advanceResult := .error .otherError }

/-- Fixture: the output of a P2P step of the ahead session. -/
def outC7 : StepOut := (stageC5.run_p2p schedId sessC7 worldW1).getD default

theorem c7_run_slow_scaling_witness :
    stageC7slow.fps_delta = 11 / 10 * (1 / (stageC7slow.updateFrequency : ℚ))
    ∧ stageC5.fps_delta = 1 / (stageC5.updateFrequency : ℚ)
    ∧ outC7.stage.runSlow = decide (0 < sessC7.framesAhead) :=
  ⟨c7_run_slow_scaling.1 stageC7slow rfl,
   c7_run_slow_scaling.2.1 stageC5 rfl,
   c7_run_slow_scaling.2.2.1 stageC5 schedId sessC7 worldW1 outC7 rfl⟩

/-- C8, amended: in both the SyncTest and the PeerToPeer input-submission
paths the stage unwraps the session's `add_local_input` result with
`.expect(..)`, so a reported invalid-handle error aborts execution as a
contract violation (panic); it is not swallowed, but neither is it
returned to the caller as a result value. -/
theorem c8_invalid_handle_panics :
    (∀ (st : GGRSStageM) (sched : WorldM → WorldM) (sess : SyncTestSessionM)
        (w : WorldM),
      (((List.range sess.numPlayers).map fun h => st.inputSystem h w).enum.all
          fun p => sess.addOk p.1 p.2) = false →
      st.run_synctest sched sess w = none)
    ∧ (∀ (st : GGRSStageM) (sched : WorldM → WorldM) (sess : P2PSessionM)
        (w : WorldM),
      sess.currentState = .running →
      ((sess.localPlayerHandles.zip
          (sess.localPlayerHandles.map fun h => st.inputSystem h w)).all
          fun p => sess.addOk p.1 p.2) = false →
      st.run_p2p sched sess w = none) := by
  constructor
  · intro st sched sess w h
    simp [GGRSStageM.run_synctest, h]
  · intro st sched sess w h1 h2
    simp [GGRSStageM.run_p2p, h1, h2]

/-- Fixture: a synctest session with one player that reports every
submitted input as an invalid-handle error. -/
def sessC8 : SyncTestSessionM :=
  { maxPrediction := 2, numPlayers := 1, addOk := fun _ _ => false,
    advanceResult := .ok [] }

/-- C8 counterexample: the session reports handle 0 as invalid, and the
SyncTest step aborts (panic) instead of surfacing the error to the caller
as a result value — the step has no error-result channel at all. -/
theorem c8_counterexample :
    sessC8.addOk 0 (stageC5.inputSystem 0 worldW1) = false
    ∧ stageC5.run_synctest schedId sessC8 worldW1 = none :=
  ⟨rfl, rfl⟩

/-- Fixture: a running P2P session with one local player that reports
every submitted input as an invalid-handle error. -/
def sessC8p2p : P2PSessionM :=
  { maxPrediction := 2, framesAhead := 0, localPlayerHandles := [0],
    currentState := .running, addOk := fun _ _ => false,
    advanceResult := .ok [] }

theorem c8_invalid_handle_panics_witness :
    stageC5.run_synctest schedId sessC8 worldW1 = none
    ∧ stageC5.run_p2p schedId sessC8p2p worldW1 = none :=
  ⟨c8_invalid_handle_panics.1 stageC5 schedId sessC8 worldW1 (by decide),
   c8_invalid_handle_panics.2 stageC5 schedId sessC8p2p worldW1 rfl (by decide)⟩

/-- Fixture: a synctest session (2 slots of prediction window 8, no
players) whose advance reports an error, so each step leaves the world
unchanged. -/
def sessC4 : SyncTestSessionM :=
  { maxPrediction := 8, numPlayers := 0, addOk := fun _ _ => true,
    advanceResult := .error .otherError }

/-- Fixture: a world holding the synctest session, so every loop
iteration performs exactly one simulation step. -/
def worldC4 : WorldM :=
  { entities := [], resources := [], playerInputs := none,
    session := some (.syncTestSession sessC4) }

section C4Eval

attribute [local semireducible] Rat.mul Rat.inv Rat.add Rat.sub

/-- C4, amended: on every tick the scheduler adds the elapsed delta to
the accumulator with saturation and then, while the accumulator exceeds
the effective step duration, subtracts one step duration and performs
exactly one simulation step; but the step duration subtracted is
`Duration::from_secs_f64(1/60)` = 16,666,667 ns (rounded to whole
nanoseconds, slightly more than 1/60 s), so with fps = 60 and a sequence
of deltas summing to exactly 1.0 second exactly 59 steps are executed and
the residual accumulator is 16,666,647 ns — just under one step duration,
not approximately zero. -/
theorem c4_accumulator_steps :
    (∀ (st : GGRSStageM) (sched : WorldM → WorldM) (delta : ℕ) (w : WorldM),
      st.tick sched delta w = tickLoopAux st.fps_delta sched
        (satAddNanos st.accumulator delta + 1)
        ⟨{ st with accumulator := satAddNanos st.accumulator delta }, w, 0, [], []⟩)
    ∧ stepNanos stageC5.fps_delta = 16666667
    ∧ (stageC5.tick schedId 1000000000 worldC4).map
        (fun s => (s.steps, s.stage.accumulator)) = some (59, 16666647)
    ∧ 59 * 16666667 + 16666647 = 1000000000 :=
  ⟨fun _ _ _ _ => rfl, by decide, by decide, by decide⟩

/-- C4 counterexample: a single tick of a fresh 60-fps stage with a delta
of exactly 1.0 second (a sequence of deltas summing to 1.0 s) executes 59
simulation steps, not 60. -/
theorem c4_counterexample :
    ¬ (stageC5.tick schedId 1000000000 worldC4).map (fun s => s.steps) =
        some 60 := by
  decide

end C4Eval

/-- The keys of the (RollbackId, bag) list captured from a world are
exactly the rollback ids of the tagged entities, in world order. -/
theorem keys_tagged (g : RbEntity → List (ℕ × List ℕ)) (l : List RbEntity) :
    ((l.filterMap fun e => e.rollback.map fun id => (id, g e)).map Prod.fst)
      = l.filterMap RbEntity.rollback := by
  induction l with
  | nil => rfl
  | cons e t ih =>
    cases h : e.rollback <;> simp [List.filterMap_cons, h, ih]

/-- Sorting by key is canonical: two permuted association lists with
duplicate-free keys have the same insertion sort by key. -/
theorem insertionSort_key_eq {β : Type} (l1 l2 : List (ℕ × β))
    (hp : l1.Perm l2) (hn : (l1.map Prod.fst).Nodup) :
    l1.insertionSort (fun a b => a.1 ≤ b.1) =
      l2.insertionSort (fun a b => a.1 ≤ b.1) := by
  haveI : IsTotal (ℕ × β) fun a b => a.1 ≤ b.1 :=
    ⟨fun a b => Nat.le_total a.1 b.1⟩
  haveI : IsTrans (ℕ × β) fun a b => a.1 ≤ b.1 :=
    ⟨fun _ _ _ hab hbc => Nat.le_trans hab hbc⟩
  haveI : IsAntisymm (ℕ × β) fun a b => a.1 < b.1 :=
    ⟨fun a b h1 h2 => absurd (Nat.lt_trans h1 h2) (Nat.lt_irrefl _)⟩
  have hs1 := List.sorted_insertionSort (fun a b : ℕ × β => a.1 ≤ b.1) l1
  have hs2 := List.sorted_insertionSort (fun a b : ℕ × β => a.1 ≤ b.1) l2
  have hp1 := List.perm_insertionSort (fun a b : ℕ × β => a.1 ≤ b.1) l1
  have hp2 := List.perm_insertionSort (fun a b : ℕ × β => a.1 ≤ b.1) l2
  have hperm : List.Perm (l1.insertionSort fun a b => a.1 ≤ b.1)
      (l2.insertionSort fun a b => a.1 ≤ b.1) :=
    hp1.trans (hp.trans hp2.symm)
  have hn1 : ((l1.insertionSort (fun a b => a.1 ≤ b.1)).map Prod.fst).Nodup :=
    ((hp1.map Prod.fst).nodup_iff).2 hn
  have hn2 : ((l2.insertionSort (fun a b => a.1 ≤ b.1)).map Prod.fst).Nodup :=
    ((hperm.map Prod.fst).nodup_iff).1 hn1
  have key : ∀ l : List (ℕ × β), l.Sorted (fun a b => a.1 ≤ b.1) →
      (l.map Prod.fst).Nodup → l.Sorted fun a b => a.1 < b.1 := by
    intro l hs hnd
    have hne : l.Pairwise fun a b => a.1 ≠ b.1 := List.pairwise_map.mp hnd
    exact (hs.and hne).imp fun hab => Nat.lt_of_le_of_ne hab.1 hab.2
  exact List.eq_of_perm_of_sorted hperm (key _ hs1 hn1) (key _ hs2 hn2)

/-- C10: capturing two worlds whose rollback-tracked data is the same up
to entity spawn order (their entity lists are permutations, with the
unique-id invariant on rollback ids, and equal resources) produces
identical checksums, because entity bags are serialized in canonical
order sorted by RollbackId. -/
theorem c10_checksum_order_independent (w1 w2 : WorldM) (reg : TypeRegistryM)
    (hperm : w1.entities.Perm w2.entities)
    (hres : w1.resources = w2.resources)
    (hids : (w1.entities.filterMap RbEntity.rollback).Nodup) :
    (WorldSnapshot.from_world w1 reg).checksum =
      (WorldSnapshot.from_world w2 reg).checksum := by
  have htag : (w1.entities.filterMap fun e => e.rollback.map fun id =>
      (id, e.components.filter fun c => reg.components.contains c.1)).Perm
      (w2.entities.filterMap fun e => e.rollback.map fun id =>
      (id, e.components.filter fun c => reg.components.contains c.1)) :=
    hperm.filterMap _
  have hkeys : ((w1.entities.filterMap fun e => e.rollback.map fun id =>
      (id, e.components.filter fun c => reg.components.contains c.1)).map
      Prod.fst).Nodup := by
    rw [keys_tagged (fun e => e.components.filter fun c => reg.components.contains c.1)]
    exact hids
  have hsort := insertionSort_key_eq _ _ htag hkeys
  simp only [WorldSnapshot.from_world, hsort, hres]

/-- Fixture: a tagged entity with rollback id 1. -/
def entA : RbEntity := ⟨some 1, [(1, [10])]⟩

/-- Fixture: a tagged entity with rollback id 2. -/
def entB : RbEntity := ⟨some 2, [(1, [20])]⟩

/-- Fixture: a world spawning `entA` before `entB`. -/
def worldC10a : WorldM :=
  { entities := [entA, entB], resources := [(2, [7])], playerInputs := none,
    session := none }

/-- Fixture: the same world contents with the spawn order reversed. -/
def worldC10b : WorldM :=
  { entities := [entB, entA], resources := [(2, [7])], playerInputs := none,
    session := none }

theorem c10_checksum_order_independent_witness :
    (WorldSnapshot.from_world worldC10a ⟨[1], [2]⟩).checksum =
      (WorldSnapshot.from_world worldC10b ⟨[1], [2]⟩).checksum :=
  c10_checksum_order_independent worldC10a worldC10b ⟨[1], [2]⟩
    (List.Perm.swap entB entA []) rfl (by decide)

end BevyGgrs
